import Mathlib

/-!
Verification development for the Cornerstone house-price prediction form
(`src/unnamed/part_000`).  The file embeds, as executable Lean definitions:

* the JavaScript number arithmetic used by the valuation algorithm,
  modelled as `Option ℚ` where `none` plays the role of `NaN` (every
  arithmetic operation propagates `NaN`);
* `parseFloat` with its leading-numeric-prefix semantics;
* `executeValuationAlgorithm`'s arithmetic pipeline (constants, parsed
  attribute values, component values, location factor, base/adjusted/final
  valuation), parameterised by the value `r` drawn by `Math.random()`;
* the form-state hook `useCornerstoneFormState` (`updateField`,
  `validateFormCompletion`, `resetForm`) and the `PredictionForm`
  component's event handling (`handleFieldChange`, `handleFormSubmission`,
  the disabled submit button, the 1500 ms timeout firing), as a step
  function on an explicit state record;
* the option values offered by the component's select widgets.

Theorems about the claims of the specification follow the definitions.
-/

/-- The six free-text property attributes of the form
(`PropertyAttributes` in the source, all fields strings). -/
structure PropertyAttributes where
  livingArea : String
  bedroomCount : String
  bathroomCount : String
  geographicZone : String
  constructionYear : String
  parkingSpaces : String
deriving DecidableEq, Repr

/-- Result of `validateFormCompletion` (the source's `ValidationResult`). -/
structure ValidationResult where
  isValid : Bool
  invalidFields : List String
deriving DecidableEq, Repr

/-- A JavaScript number, modelled as a rational or `NaN` (`none`).
(IEEE-754 rounding and infinities are outside this model; every quantity
occurring in the program is an exact decimal, so rationals are faithful.) -/
abbrev JSNum := Option ℚ

/-- JS addition: `NaN` propagates. -/
def jadd : JSNum → JSNum → JSNum
  | some a, some b => some (a + b)
  | _, _ => none

/-- JS subtraction: `NaN` propagates. -/
def jsub : JSNum → JSNum → JSNum
  | some a, some b => some (a - b)
  | _, _ => none

/-- JS multiplication: `NaN` propagates. -/
def jmul : JSNum → JSNum → JSNum
  | some a, some b => some (a * b)
  | _, _ => none

/-- `Math.max(0, x)`: returns `NaN` when `x` is `NaN`. -/
def jmax0 : JSNum → JSNum
  | some a => some (max 0 a)
  | none => none

/-- `Math.round`: round half toward positive infinity; `NaN` propagates. -/
def jround : JSNum → JSNum
  | some a => some ((⌊a + 1/2⌋ : ℤ) : ℚ)
  | none => none

/-- Take the leading run of decimal digits of a character list, returning
the digit values and the rest of the list. -/
def takeDigits : List Char → List ℕ × List Char
  | [] => ([], [])
  | c :: cs =>
    if c.isDigit then
      let p := takeDigits cs
      ((c.toNat - 48) :: p.1, p.2)
    else ([], c :: cs)

/-- Read a digit list (most significant first) as a natural number. -/
def digitsToNat (ds : List ℕ) : ℕ := ds.foldl (fun a d => 10 * a + d) 0

/-- The syntactic parts of the longest decimal-number prefix of a string:
sign, integer digits, fraction digits, exponent sign, exponent digits. -/
structure FloatParse where
  neg : Bool
  ints : List ℕ
  fracs : List ℕ
  expNeg : Bool
  expDigits : List ℕ
deriving DecidableEq, Repr

/-- Split a character list into the parts of its leading decimal-number
prefix: optional sign, digits, optional `.` and fraction digits, optional
exponent; `none` when no digit is found before the first unusable
character. -/
def splitNumber (cs : List Char) : Option FloatParse :=
  let sp : Bool × List Char :=
    match cs with
    | '-' :: r => (true, r)
    | '+' :: r => (false, r)
    | r => (false, r)
  let ip := takeDigits sp.2
  let fp : List ℕ × List Char :=
    match ip.2 with
    | '.' :: r => takeDigits r
    | r => ([], r)
  if ip.1.isEmpty ∧ fp.1.isEmpty then none
  else
    let ex : Bool × List ℕ :=
      match fp.2 with
      | c :: r =>
        if c = 'e' ∨ c = 'E' then
          let ep : Bool × List Char :=
            match r with
            | '-' :: r2 => (true, r2)
            | '+' :: r2 => (false, r2)
            | r2 => (false, r2)
          (ep.1, (takeDigits ep.2).1)
        else (false, [])
      | [] => (false, [])
    some { neg := sp.1, ints := ip.1, fracs := fp.1, expNeg := ex.1, expDigits := ex.2 }

/-- The rational value of a parsed decimal number
(an absent exponent is the empty digit list, read as exponent 0). -/
def floatValue (f : FloatParse) : ℚ :=
  let mantissa : ℚ := (digitsToNat f.ints : ℚ) + (digitsToNat f.fracs : ℚ) / 10 ^ f.fracs.length
  let expo : ℤ :=
    if f.expNeg then -(digitsToNat f.expDigits : ℤ) else (digitsToNat f.expDigits : ℤ)
  (if f.neg then -1 else 1) * mantissa * (10 : ℚ) ^ expo

/-- JS `parseFloat`: skip leading whitespace, then parse the longest prefix
that forms a decimal number; `NaN` (`none`) when there is no numeric prefix.
(The special literal `Infinity` is not representable in the rational model
and does not occur among the form's values.) -/
def parseFloat (s : String) : JSNum :=
  (splitNumber (s.data.dropWhile Char.isWhitespace)).map floatValue

-- ==================== valuation constants (source lines 115-128) ========

def FOUNDATION_VALUE : ℚ := 150000
def AREA_MULTIPLIER : ℚ := 120
def BEDROOM_INCREMENT : ℚ := 25000
def BATHROOM_INCREMENT : ℚ := 15000
def PARKING_VALUE : ℚ := 10000
def ANNUAL_DEPRECIATION : ℚ := 500
def CURRENT_YEAR : ℚ := 2025

/-- Property names a plain object literal inherits from
`Object.prototype`: reading one of these keys on `LOCATION_FACTORS`
yields the inherited member (a function, or `Object.prototype` itself for
`__proto__`) instead of `undefined`. -/
def objectPrototypeKeys : List String :=
  ["constructor", "hasOwnProperty", "isPrototypeOf", "propertyIsEnumerable",
   "toLocaleString", "toString", "valueOf", "__proto__",
   "__defineGetter__", "__defineSetter__", "__lookupGetter__", "__lookupSetter__"]

/-- Result of the JS property read `LOCATION_FACTORS[zone]`: an own
numeric member, a truthy member inherited from `Object.prototype` through
the prototype chain, or `undefined`. -/
inductive PropertyRead where
  | ownNum (q : ℚ)
  | inheritedMember
  | absent
deriving DecidableEq, Repr

/-- The `LOCATION_FACTORS` object literal: own members for `urban`,
`suburban`, `rural`; inherited members of `Object.prototype` for its
property names; `undefined` for every other key. -/
def LOCATION_FACTORS (zone : String) : PropertyRead :=
  if zone = "urban" then .ownNum 1.4
  else if zone = "suburban" then .ownNum 1.2
  else if zone = "rural" then .ownNum 1.0
  else if zone ∈ objectPrototypeKeys then .inheritedMember
  else .absent

/-- `LOCATION_FACTORS[zone] || 1.0`, as it enters the multiplication of
line 151: `undefined` is falsy, so `||` substitutes 1.0; every stored
factor and every inherited member is truthy and kept; an inherited member
is a function or object, which `ToNumber` coerces to NaN when multiplied,
so it is modelled as the NaN value `none`. -/
def locationFactor (zone : String) : JSNum :=
  match LOCATION_FACTORS zone with
  | .ownNum q => some q
  | .inheritedMember => none
  | .absent => some 1.0

-- ============ parsed attribute values (source lines 131-135) ============

def livingAreaValue (p : PropertyAttributes) : JSNum := parseFloat p.livingArea

def bedroomValue (p : PropertyAttributes) : JSNum := parseFloat p.bedroomCount

def bathroomValue (p : PropertyAttributes) : JSNum := parseFloat p.bathroomCount

def propertyAge (p : PropertyAttributes) : JSNum :=
  jsub (some CURRENT_YEAR) (parseFloat p.constructionYear)

def parkingValue (p : PropertyAttributes) : JSNum := parseFloat p.parkingSpaces

-- ============ component values (source lines 138-142) ===================

def areaComponent (p : PropertyAttributes) : JSNum :=
  jmul (livingAreaValue p) (some AREA_MULTIPLIER)

def bedroomComponent (p : PropertyAttributes) : JSNum :=
  jmul (bedroomValue p) (some BEDROOM_INCREMENT)

def bathroomComponent (p : PropertyAttributes) : JSNum :=
  jmul (bathroomValue p) (some BATHROOM_INCREMENT)

def ageComponent (p : PropertyAttributes) : JSNum :=
  jmax0 (jmul (propertyAge p) (some ANNUAL_DEPRECIATION))

def parkingComponent (p : PropertyAttributes) : JSNum :=
  jmul (parkingValue p) (some PARKING_VALUE)

-- ============ composite valuation (source lines 149-155) ================

def baseValuation (p : PropertyAttributes) : JSNum :=
  jsub
    (jadd
      (jadd
        (jadd (jadd (some FOUNDATION_VALUE) (areaComponent p)) (bedroomComponent p))
        (bathroomComponent p))
      (parkingComponent p))
    (ageComponent p)

def adjustedValuation (p : PropertyAttributes) : JSNum :=
  jmul (baseValuation p) (locationFactor p.geographicZone)

/-- `adjustedValuation * (Math.random() * 0.1 - 0.05)`, with the value of
`Math.random()` passed in as `r`. -/
def volatilityRange (p : PropertyAttributes) (r : ℚ) : JSNum :=
  jmul (adjustedValuation p) (some (r * 0.1 - 0.05))

/-- `Math.round(adjustedValuation + volatilityRange)`: the number handed to
`setEstimatedValue`. -/
def finalValuation (p : PropertyAttributes) (r : ℚ) : JSNum :=
  jround (jadd (adjustedValuation p) (volatilityRange p r))

-- ==================== form state hook (source lines 44-98) ==============

/-- Names of the six form fields, as used for `name` attributes and for the
keys of `validationMap`. -/
inductive FieldName
  | livingArea | bedroomCount | bathroomCount
  | geographicZone | constructionYear | parkingSpaces
deriving DecidableEq, Repr

/-- The string form of a field name (the key under which it appears in
`validationMap` / `invalidFields`). -/
def fieldNameString : FieldName → String
  | .livingArea => "livingArea"
  | .bedroomCount => "bedroomCount"
  | .bathroomCount => "bathroomCount"
  | .geographicZone => "geographicZone"
  | .constructionYear => "constructionYear"
  | .parkingSpaces => "parkingSpaces"

/-- Read one attribute of the record by field name. -/
def getField (p : PropertyAttributes) : FieldName → String
  | .livingArea => p.livingArea
  | .bedroomCount => p.bedroomCount
  | .bathroomCount => p.bathroomCount
  | .geographicZone => p.geographicZone
  | .constructionYear => p.constructionYear
  | .parkingSpaces => p.parkingSpaces

/-- The initial (and `resetForm`) property data: all six fields empty. -/
def initialPropertyData : PropertyAttributes :=
  { livingArea := "", bedroomCount := "", bathroomCount := ""
    geographicZone := "", constructionYear := "", parkingSpaces := "" }

/-- `updateField`: replace one attribute's value, keep the rest. -/
def updateField (p : PropertyAttributes) : FieldName → String → PropertyAttributes
  | .livingArea, v => { p with livingArea := v }
  | .bedroomCount, v => { p with bedroomCount := v }
  | .bathroomCount, v => { p with bathroomCount := v }
  | .geographicZone, v => { p with geographicZone := v }
  | .constructionYear, v => { p with constructionYear := v }
  | .parkingSpaces, v => { p with parkingSpaces := v }

/-- The `validationMap` object of `validateFormCompletion`: each field name
paired with the truth value of `!propertyData.field` (a string is falsy
exactly when it is empty), in the source's insertion order. -/
def validationMap (p : PropertyAttributes) : List (String × Bool) :=
  [("livingArea", p.livingArea == ""),
   ("bedroomCount", p.bedroomCount == ""),
   ("bathroomCount", p.bathroomCount == ""),
   ("geographicZone", p.geographicZone == ""),
   ("constructionYear", p.constructionYear == ""),
   ("parkingSpaces", p.parkingSpaces == "")]

/-- `validateFormCompletion`: collect the names of the empty fields;
valid when none are empty. -/
def validateFormCompletion (p : PropertyAttributes) : ValidationResult :=
  let invalid := ((validationMap p).filter Prod.snd).map Prod.fst
  { isValid := invalid.length == 0, invalidFields := invalid }

-- ==================== component state machine ===========================

/-- Combined state of the two hooks and the scheduled `setTimeout`
callbacks of `usePricingCalculation`.  `pending` is the queue of snapshots
captured by scheduled (not yet fired) timeouts, in scheduling order;
`estimatedValue = none` models the React state value `null`. -/
structure FormState where
  propertyData : PropertyAttributes
  estimatedValue : Option JSNum
  isCalculating : Bool
  pending : List PropertyAttributes
deriving DecidableEq, Repr

/-- Initial component state: empty fields, no result, idle, nothing
scheduled. -/
def initialState : FormState :=
  { propertyData := initialPropertyData, estimatedValue := none
    isCalculating := false, pending := [] }

/-- `handleFieldChange`: `updateField` followed by `clearValuation` (which
sets `estimatedValue` to `null` and leaves `isCalculating` alone). -/
def handleFieldChange (s : FormState) (f : FieldName) (v : String) : FormState :=
  { s with propertyData := updateField s.propertyData f v, estimatedValue := none }

/-- Synchronous part of `executeValuationAlgorithm`: set `isCalculating`
and schedule a timeout over the snapshot passed as argument. -/
def startValuation (s : FormState) (snap : PropertyAttributes) : FormState :=
  { s with isCalculating := true, pending := s.pending ++ [snap] }

/-- `handleFormSubmission`: run the algorithm on the current data iff the
memoised validation result is valid. -/
def handleFormSubmission (s : FormState) : FormState :=
  if (validateFormCompletion s.propertyData).isValid then
    startValuation s s.propertyData
  else s

/-- The submit button's `disabled` prop:
`!validationStatus.isValid || pricing.isCalculating`. -/
def submitDisabled (s : FormState) : Bool :=
  !(validateFormCompletion s.propertyData).isValid || s.isCalculating

/-- A scheduled timeout fires (after its 1500 ms delay) with `Math.random()`
drawing `r`: the oldest pending snapshot is valued, the result stored, and
`isCalculating` reset.  No-op when nothing is scheduled. -/
def fireTimeout (s : FormState) (r : ℚ) : FormState :=
  match s.pending with
  | [] => s
  | snap :: rest =>
    { s with estimatedValue := some (finalValuation snap r)
             isCalculating := false, pending := rest }

/-- Events the page can deliver to the component.  `reset` is the hook's
`resetForm` (exposed but never wired to any control in the component). -/
inductive FormEvent
  | fieldChange (f : FieldName) (v : String)
  | submit
  | fire (r : ℚ)
  | reset

/-- One step of the component: a disabled submit button delivers no submit
event, so `submit` is a no-op while `submitDisabled` holds. -/
def step : FormEvent → FormState → FormState
  | .fieldChange f v, s => handleFieldChange s f v
  | .submit, s => if submitDisabled s then s else handleFormSubmission s
  | .fire r, s => fireTimeout s r
  | .reset, s => { s with propertyData := initialPropertyData }

-- ==================== select widget options (source lines 205-348) ======

/-- Option values of the bedrooms select (value = label). -/
def bedroomOptionValues : List String := ["1", "2", "3", "4", "5+"]

/-- Option values of the bathrooms select (value = label). -/
def bathroomOptionValues : List String := ["1", "1.5", "2", "2.5", "3", "3.5", "4+"]

/-- Option values of the location select (value = label). -/
def zoneOptionValues : List String := ["urban", "suburban", "rural"]

/-- `(value, label)` pairs of the parking select, source lines 343-346:
the option labelled `3+` carries the value `3`. -/
def parkingSpaceOptions : List (String × String) :=
  [("0", "0"), ("1", "1"), ("2", "2"), ("3", "3+")]

/-- The values a change event on a given field can carry: selects emit one
of their option values or the empty placeholder value; the two numeric
inputs are free text. -/
def allowedFieldValue : FieldName → String → Prop
  | .livingArea, _ => True
  | .bedroomCount, v => v = "" ∨ v ∈ bedroomOptionValues
  | .bathroomCount, v => v = "" ∨ v ∈ bathroomOptionValues
  | .geographicZone, v => v = "" ∨ v ∈ zoneOptionValues
  | .constructionYear, _ => True
  | .parkingSpaces, v => v = "" ∨ v ∈ parkingSpaceOptions.map Prod.fst

/-- An event the rendered page can actually deliver. -/
def UIEvent : FormEvent → Prop
  | .fieldChange f v => allowedFieldValue f v
  | _ => True

/-- States reachable from the initial state through page events. -/
inductive Reachable : FormState → Prop
  | init : Reachable initialState
  | next (s : FormState) (e : FormEvent) :
      Reachable s → UIEvent e → Reachable (step e s)

-- ==================== shared lemmas =====================================

@[simp] lemma jadd_none_left (x : JSNum) : jadd none x = none := by cases x <;> rfl

@[simp] lemma jadd_none_right (x : JSNum) : jadd x none = none := by cases x <;> rfl

@[simp] lemma jsub_none_left (x : JSNum) : jsub none x = none := by cases x <;> rfl

@[simp] lemma jsub_none_right (x : JSNum) : jsub x none = none := by cases x <;> rfl

@[simp] lemma jmul_none_left (x : JSNum) : jmul none x = none := by cases x <;> rfl

@[simp] lemma jmul_none_right (x : JSNum) : jmul x none = none := by cases x <;> rfl

@[simp] lemma jadd_some (a b : ℚ) : jadd (some a) (some b) = some (a + b) := rfl

@[simp] lemma jsub_some (a b : ℚ) : jsub (some a) (some b) = some (a - b) := rfl

@[simp] lemma jmul_some (a b : ℚ) : jmul (some a) (some b) = some (a * b) := rfl

@[simp] lemma jmax0_some (a : ℚ) : jmax0 (some a) = some (max 0 a) := rfl

@[simp] lemma jmax0_none : jmax0 none = none := rfl

@[simp] lemma jround_some (a : ℚ) : jround (some a) = some ((⌊a + 1/2⌋ : ℤ) : ℚ) := rfl

@[simp] lemma jround_none : jround none = none := rfl

lemma parseFloat_split (s : String) (f : FloatParse)
    (h : splitNumber (s.data.dropWhile Char.isWhitespace) = some f) :
    parseFloat s = some (floatValue f) := by
  rw [parseFloat, h]; rfl

lemma parseFloat_nan (s : String)
    (h : splitNumber (s.data.dropWhile Char.isWhitespace) = none) :
    parseFloat s = none := by
  rw [parseFloat, h]; rfl

lemma parseFloat_2000 : parseFloat "2000" = some 2000 := by
  rw [parseFloat_split "2000"
    { neg := false, ints := [2, 0, 0, 0], fracs := [], expNeg := false, expDigits := [] }
    (by decide)]
  norm_num [floatValue, digitsToNat]

lemma parseFloat_three : parseFloat "3" = some 3 := by
  rw [parseFloat_split "3"
    { neg := false, ints := [3], fracs := [], expNeg := false, expDigits := [] }
    (by decide)]
  norm_num [floatValue, digitsToNat]

lemma parseFloat_two : parseFloat "2" = some 2 := by
  rw [parseFloat_split "2"
    { neg := false, ints := [2], fracs := [], expNeg := false, expDigits := [] }
    (by decide)]
  norm_num [floatValue, digitsToNat]

lemma parseFloat_2010 : parseFloat "2010" = some 2010 := by
  rw [parseFloat_split "2010"
    { neg := false, ints := [2, 0, 1, 0], fracs := [], expNeg := false, expDigits := [] }
    (by decide)]
  norm_num [floatValue, digitsToNat]

lemma parseFloat_2030 : parseFloat "2030" = some 2030 := by
  rw [parseFloat_split "2030"
    { neg := false, ints := [2, 0, 3, 0], fracs := [], expNeg := false, expDigits := [] }
    (by decide)]
  norm_num [floatValue, digitsToNat]

lemma parseFloat_five_plus : parseFloat "5+" = some 5 := by
  rw [parseFloat_split "5+"
    { neg := false, ints := [5], fracs := [], expNeg := false, expDigits := [] }
    (by decide)]
  norm_num [floatValue, digitsToNat]

lemma parseFloat_four_plus : parseFloat "4+" = some 4 := by
  rw [parseFloat_split "4+"
    { neg := false, ints := [4], fracs := [], expNeg := false, expDigits := [] }
    (by decide)]
  norm_num [floatValue, digitsToNat]

lemma parseFloat_three_plus : parseFloat "3+" = some 3 := by
  rw [parseFloat_split "3+"
    { neg := false, ints := [3], fracs := [], expNeg := false, expDigits := [] }
    (by decide)]
  norm_num [floatValue, digitsToNat]

lemma parseFloat_area : parseFloat "area" = none :=
  parseFloat_nan "area" (by decide)

-- ==================== concrete records used in the theorems =============

/-- The worked example of the specification: livingArea 2000, three
bedrooms, two bathrooms, suburban, built 2010, two parking spaces. -/
def sampleInputs : PropertyAttributes :=
  { livingArea := "2000", bedroomCount := "3", bathroomCount := "2"
    geographicZone := "suburban", constructionYear := "2010", parkingSpaces := "2" }

/-- A record holding each of the three "plus" option labels. -/
def plusSample : PropertyAttributes :=
  { livingArea := "2000", bedroomCount := "5+", bathroomCount := "4+"
    geographicZone := "urban", constructionYear := "2010", parkingSpaces := "3+" }

/-- A complete record (all six fields non-empty) whose living-area string
has no leading numeric prefix. -/
def nanSample : PropertyAttributes :=
  { livingArea := "area", bedroomCount := "3", bathroomCount := "2"
    geographicZone := "urban", constructionYear := "2010", parkingSpaces := "2" }

/-- A record whose construction year lies beyond the reference year. -/
def yearSample : PropertyAttributes :=
  { initialPropertyData with constructionYear := "2030" }

/-- The worked example with the zone replaced by the inherited
`Object.prototype` property name "toString". -/
def protoSample : PropertyAttributes :=
  { sampleInputs with geographicZone := "toString" }

-- ==================== claims ============================================

/-- C3: the numeric parsing used by the valuation algorithm keeps the
leading numeric prefix and drops trailing characters: "5+" parses to 5
(bedrooms), "4+" to 4 (bathrooms), "3+" to 3 (parking). -/
theorem claim_c3_plus_prefix_parsing :
    parseFloat "5+" = some 5 ∧ parseFloat "4+" = some 4 ∧ parseFloat "3+" = some 3 ∧
    bedroomValue plusSample = some 5 ∧ bathroomValue plusSample = some 4 ∧
    parkingValue plusSample = some 3 :=
  ⟨parseFloat_five_plus, parseFloat_four_plus, parseFloat_three_plus,
   parseFloat_five_plus, parseFloat_four_plus, parseFloat_three_plus⟩

/-- C4 (counterexample): the claim that the literal "5+" parses to NaN is
false — the program's numeric parsing yields 5, not NaN. -/
theorem claim_c4_counterexample :
    parseFloat "5+" ≠ none ∧ parseFloat "5+" = some 5 := by
  refine ⟨?_, parseFloat_five_plus⟩
  rw [parseFloat_five_plus]
  exact Option.some_ne_none 5

/-- C4 (amended): under the program's numeric parsing, the literal string
"5+" parses to the number 5 (its leading numeric prefix), not to NaN. -/
theorem claim_c4_amended :
    parseFloat "5+" = some 5 ∧ bedroomValue plusSample = some 5 :=
  ⟨parseFloat_five_plus, parseFloat_five_plus⟩

/-- C5 (counterexample): for the zone string "toString" — not in
{urban, suburban, rural} — the factor applied is not 1.0: the read
retrieves the truthy member inherited from `Object.prototype`, `|| 1.0`
does not substitute, and the multiplication with it yields NaN, so the
adjusted valuation of an otherwise well-formed record is NaN. -/
theorem claim_c5_counterexample :
    locationFactor "toString" ≠ some 1.0 ∧ locationFactor "toString" = none ∧
    adjustedValuation protoSample = none := by
  have h1 : ("toString" : String) ≠ "urban" := by decide
  have h2 : ("toString" : String) ≠ "suburban" := by decide
  have h3 : ("toString" : String) ≠ "rural" := by decide
  have h4 : ("toString" : String) ∈ objectPrototypeKeys := by decide
  have hfac : locationFactor "toString" = none := by
    simp [locationFactor, LOCATION_FACTORS, h1, h2, h3, h4]
  refine ⟨by rw [hfac]; simp, hfac, ?_⟩
  rw [adjustedValuation]
  have hz : locationFactor protoSample.geographicZone = none := hfac
  rw [hz]
  exact jmul_none_right _

/-- C5 (amended): the location factor applied by the valuation algorithm
is 1.4 for "urban", 1.2 for "suburban", 1.0 for "rural", and 1.0 for
every other zone string — including the empty string — except the names
of properties inherited from `Object.prototype` (such as "toString"),
where the truthy inherited member is kept and coerces to NaN in the
multiplication. -/
theorem claim_c5_location_factor (z : String)
    (h1 : z ≠ "urban") (h2 : z ≠ "suburban") (h3 : z ≠ "rural")
    (h4 : z ∉ objectPrototypeKeys) :
    locationFactor z = some 1.0 ∧ locationFactor "urban" = some 1.4 ∧
    locationFactor "suburban" = some 1.2 ∧ locationFactor "rural" = some 1.0 ∧
    locationFactor "toString" = none := by
  have hsu : ("suburban" : String) ≠ "urban" := by decide
  have hru : ("rural" : String) ≠ "urban" := by decide
  have hrs : ("rural" : String) ≠ "suburban" := by decide
  have ht1 : ("toString" : String) ≠ "urban" := by decide
  have ht2 : ("toString" : String) ≠ "suburban" := by decide
  have ht3 : ("toString" : String) ≠ "rural" := by decide
  have ht4 : ("toString" : String) ∈ objectPrototypeKeys := by decide
  refine ⟨?_, by norm_num [locationFactor, LOCATION_FACTORS],
    by norm_num [locationFactor, LOCATION_FACTORS, hsu],
    by norm_num [locationFactor, LOCATION_FACTORS, hru, hrs],
    by simp [locationFactor, LOCATION_FACTORS, ht1, ht2, ht3, ht4]⟩
  simp [locationFactor, LOCATION_FACTORS, h1, h2, h3, h4]

/-- C5 (witness): instantiation at the empty zone string, which is not an
inherited property name. -/
theorem claim_c5_location_factor_witness :
    locationFactor "" = some 1.0 ∧ locationFactor "urban" = some 1.4 ∧
    locationFactor "suburban" = some 1.2 ∧ locationFactor "rural" = some 1.0 ∧
    locationFactor "toString" = none :=
  claim_c5_location_factor "" (by decide) (by decide) (by decide) (by decide)

/-- C6: whenever the construction year parses to a number, the age
component is the clamped value max(0, (2025 - year) * 500); in particular
it is 0, never negative, for years beyond the reference year 2025. -/
theorem claim_c6_age_clamped (p : PropertyAttributes) (q : ℚ)
    (hq : parseFloat p.constructionYear = some q) :
    ageComponent p = some (max 0 ((CURRENT_YEAR - q) * ANNUAL_DEPRECIATION)) ∧
    (CURRENT_YEAR < q → ageComponent p = some 0) := by
  have hcomp : ageComponent p = some (max 0 ((CURRENT_YEAR - q) * ANNUAL_DEPRECIATION)) := by
    simp [ageComponent, propertyAge, hq]
  refine ⟨hcomp, fun hlt => ?_⟩
  rw [hcomp]
  have hle : (CURRENT_YEAR - q) * ANNUAL_DEPRECIATION ≤ 0 := by
    have : CURRENT_YEAR - q ≤ 0 := by linarith
    have hpos : (0 : ℚ) ≤ ANNUAL_DEPRECIATION := by norm_num [ANNUAL_DEPRECIATION]
    exact mul_nonpos_of_nonpos_of_nonneg this hpos
  simp [max_eq_left hle]

/-- C6 (witness): a 2030 construction year gives age component 0. -/
theorem claim_c6_age_clamped_witness :
    ageComponent yearSample = some 0 :=
  (claim_c6_age_clamped yearSample 2030 parseFloat_2030).2
    (by norm_num [CURRENT_YEAR])

/-- C8: after any field-edit event, on any field and with any value, the
stored valuation result is cleared in the same step. -/
theorem claim_c8_edit_clears_result (s : FormState) (f : FieldName) (v : String) :
    (step (.fieldChange f v) s).estimatedValue = none ∧
    (handleFieldChange s f v).estimatedValue = none :=
  ⟨rfl, rfl⟩

lemma suburban_factor : locationFactor "suburban" = some 1.2 := by
  have hsu : ("suburban" : String) ≠ "urban" := by decide
  norm_num [locationFactor, LOCATION_FACTORS, hsu]

lemma sample_base : baseValuation sampleInputs = some 507500 := by
  have hage : ageComponent sampleInputs = some 7500 := by
    simp [ageComponent, propertyAge, sampleInputs, parseFloat_2010,
      CURRENT_YEAR, ANNUAL_DEPRECIATION]
    norm_num [max_def]
  rw [baseValuation, hage]
  simp [areaComponent, bedroomComponent, bathroomComponent,
    parkingComponent, livingAreaValue, bedroomValue, bathroomValue, parkingValue,
    sampleInputs, parseFloat_2000, parseFloat_three, parseFloat_two,
    FOUNDATION_VALUE, AREA_MULTIPLIER, BEDROOM_INCREMENT, BATHROOM_INCREMENT,
    PARKING_VALUE]
  norm_num

lemma sample_adjusted : adjustedValuation sampleInputs = some 609000 := by
  rw [adjustedValuation, sample_base]
  have hz : locationFactor sampleInputs.geographicZone = some 1.2 := suburban_factor
  rw [hz, jmul_some]
  norm_num

/-- C1: on the spec's worked example (livingArea "2000", three bedrooms,
two bathrooms, suburban, built 2010, two parking spaces) the base
valuation is 507500 and the adjusted valuation 609000, and for every
jitter value in [0,1] the final valuation is a number in
[578550, 639450]. -/
theorem claim_c1_worked_example (r : ℚ) (h0 : 0 ≤ r) (h1 : r ≤ 1) :
    baseValuation sampleInputs = some 507500 ∧
    adjustedValuation sampleInputs = some 609000 ∧
    finalValuation sampleInputs r ≠ none ∧
    ∀ q : ℚ, finalValuation sampleInputs r = some q → 578550 ≤ q ∧ q ≤ 639450 := by
  have hfin : finalValuation sampleInputs r =
      some ((⌊(609000 : ℚ) + 609000 * (r * 0.1 - 0.05) + 1/2⌋ : ℤ) : ℚ) := by
    rw [finalValuation, volatilityRange, sample_adjusted]
    simp
  refine ⟨sample_base, sample_adjusted, ?_, ?_⟩
  · rw [hfin]; exact Option.some_ne_none _
  · intro q hq
    rw [hfin] at hq
    obtain rfl : ((⌊(609000 : ℚ) + 609000 * (r * 0.1 - 0.05) + 1/2⌋ : ℤ) : ℚ) = q :=
      Option.some.inj hq
    constructor
    · have hlow : (578550 : ℤ) ≤ ⌊(609000 : ℚ) + 609000 * (r * 0.1 - 0.05) + 1/2⌋ := by
        rw [Int.le_floor]
        push_cast
        nlinarith
      exact_mod_cast hlow
    · have hhigh : ⌊(609000 : ℚ) + 609000 * (r * 0.1 - 0.05) + 1/2⌋ < 639451 := by
        rw [Int.floor_lt]
        push_cast
        nlinarith
      have hle : ⌊(609000 : ℚ) + 609000 * (r * 0.1 - 0.05) + 1/2⌋ ≤ 639450 := by omega
      exact_mod_cast hle

/-- C1 (witness): at jitter 1/2 the final valuation is exactly 609000,
which lies in the interval. -/
theorem claim_c1_worked_example_witness :
    baseValuation sampleInputs = some 507500 ∧
    adjustedValuation sampleInputs = some 609000 ∧
    finalValuation sampleInputs (1/2) ≠ none ∧
    ((578550 : ℚ) ≤ 609000 ∧ (609000 : ℚ) ≤ 639450) := by
  obtain ⟨hb, ha, hn, hq⟩ := claim_c1_worked_example (1/2) (by norm_num) (by norm_num)
  have hfloor : (⌊(609000 : ℚ) + 609000 * ((1 : ℚ)/2 * 0.1 - 0.05) + 1/2⌋ : ℤ) = 609000 := by
    rw [Int.floor_eq_iff]
    constructor <;> norm_num
  have hfin : finalValuation sampleInputs (1/2) = some 609000 := by
    rw [finalValuation, volatilityRange, ha, jmul_some, jadd_some, jround_some, hfloor]
    norm_num
  exact ⟨hb, ha, hn, hq 609000 hfin⟩

/-- C7: when any parsed attribute has no leading numeric prefix, its parse
is NaN, the final valuation is NaN, and a submission followed by the
timeout firing stores and displays that NaN (the displayed-result guard
`estimatedValue !== null` still holds, so the NaN is shown). -/
theorem claim_c7_nan_propagation (p : PropertyAttributes) (r : ℚ) (s : FormState)
    (hnan : livingAreaValue p = none ∨ bedroomValue p = none ∨ bathroomValue p = none ∨
      parseFloat p.constructionYear = none ∨ parkingValue p = none)
    (hp : s.propertyData = p) (hpend : s.pending = []) (hcalc : s.isCalculating = false)
    (hvalid : (validateFormCompletion p).isValid = true) :
    finalValuation p r = none ∧
    (step (.fire r) (step .submit s)).estimatedValue = some none ∧
    (step (.fire r) (step .submit s)).estimatedValue ≠ none := by
  have hfin : finalValuation p r = none := by
    rcases hnan with h | h | h | h | h <;>
      simp [finalValuation, volatilityRange, adjustedValuation, baseValuation,
        areaComponent, bedroomComponent, bathroomComponent, parkingComponent,
        ageComponent, propertyAge, h]
  have hdisp : (step (.fire r) (step .submit s)).estimatedValue = some none := by
    simp [step, submitDisabled, hp, hvalid, hcalc, handleFormSubmission,
      startValuation, fireTimeout, hpend, hfin]
  exact ⟨hfin, hdisp, by rw [hdisp]; exact Option.some_ne_none _⟩

/-- C7 (witness): the record with livingArea "area" (all six fields
non-empty) yields a NaN final valuation, stored and displayed. -/
theorem claim_c7_nan_propagation_witness :
    finalValuation nanSample 0 = none ∧
    (step (.fire 0) (step .submit
      { propertyData := nanSample, estimatedValue := none
        isCalculating := false, pending := [] })).estimatedValue = some none ∧
    (step (.fire 0) (step .submit
      { propertyData := nanSample, estimatedValue := none
        isCalculating := false, pending := [] })).estimatedValue ≠ none :=
  claim_c7_nan_propagation nanSample 0
    { propertyData := nanSample, estimatedValue := none
      isCalculating := false, pending := [] }
    (Or.inl parseFloat_area) rfl rfl rfl (by decide)

/-- C9: while a computation is pending, submit is a no-op (no second
computation starts, nothing changes); submit with an incomplete form is a
no-op; submit with a complete form while idle starts exactly one
computation, leaving the stored result and the data untouched. -/
theorem claim_c9_submit_gating (s : FormState) :
    (s.isCalculating = true → step .submit s = s) ∧
    ((validateFormCompletion s.propertyData).isValid = false → step .submit s = s) ∧
    ((validateFormCompletion s.propertyData).isValid = true → s.isCalculating = false →
      (step .submit s).isCalculating = true ∧
      (step .submit s).pending = s.pending ++ [s.propertyData] ∧
      (step .submit s).estimatedValue = s.estimatedValue ∧
      (step .submit s).propertyData = s.propertyData) := by
  refine ⟨fun hc => ?_, fun hv => ?_, fun hv hc => ?_⟩
  · simp [step, submitDisabled, hc]
  · simp [step, submitDisabled, hv, handleFormSubmission]
  · simp [step, submitDisabled, hv, hc, handleFormSubmission, startValuation]

/-- C9 (witness): a pending state absorbs a submit unchanged; an idle
complete state starts one computation on submit. -/
theorem claim_c9_submit_gating_witness :
    step .submit { propertyData := sampleInputs, estimatedValue := none
                   isCalculating := true, pending := [sampleInputs] } =
      { propertyData := sampleInputs, estimatedValue := none
        isCalculating := true, pending := [sampleInputs] } ∧
    (step .submit { propertyData := sampleInputs, estimatedValue := none
                    isCalculating := false, pending := [] }).isCalculating = true ∧
    (step .submit { propertyData := sampleInputs, estimatedValue := none
                    isCalculating := false, pending := [] }).pending = [] ++ [sampleInputs] := by
  refine ⟨(claim_c9_submit_gating _).1 rfl, ?_, ?_⟩
  · exact ((claim_c9_submit_gating _).2.2 (by decide) rfl).1
  · exact ((claim_c9_submit_gating _).2.2 (by decide) rfl).2.1

/-- C2: the completeness check reports exactly the empty fields (in the
source's field order), is valid iff all six fields are non-empty, is valid
iff the missing list is empty, and depends only on which fields are empty,
never on the content of non-empty values. -/
theorem claim_c2_completeness_check (p pp : PropertyAttributes)
    (q1 : p.livingArea = "" ↔ pp.livingArea = "")
    (q2 : p.bedroomCount = "" ↔ pp.bedroomCount = "")
    (q3 : p.bathroomCount = "" ↔ pp.bathroomCount = "")
    (q4 : p.geographicZone = "" ↔ pp.geographicZone = "")
    (q5 : p.constructionYear = "" ↔ pp.constructionYear = "")
    (q6 : p.parkingSpaces = "" ↔ pp.parkingSpaces = "") :
    (validateFormCompletion p).invalidFields =
      (if p.livingArea = "" then ["livingArea"] else []) ++
      (if p.bedroomCount = "" then ["bedroomCount"] else []) ++
      (if p.bathroomCount = "" then ["bathroomCount"] else []) ++
      (if p.geographicZone = "" then ["geographicZone"] else []) ++
      (if p.constructionYear = "" then ["constructionYear"] else []) ++
      (if p.parkingSpaces = "" then ["parkingSpaces"] else []) ∧
    ((validateFormCompletion p).isValid = true ↔
      (p.livingArea ≠ "" ∧ p.bedroomCount ≠ "" ∧ p.bathroomCount ≠ "" ∧
       p.geographicZone ≠ "" ∧ p.constructionYear ≠ "" ∧ p.parkingSpaces ≠ "")) ∧
    ((validateFormCompletion p).isValid = true ↔
      (validateFormCompletion p).invalidFields = []) ∧
    validateFormCompletion p = validateFormCompletion pp := by
  obtain ⟨a1, a2, a3, a4, a5, a6⟩ := p
  obtain ⟨b1, b2, b3, b4, b5, b6⟩ := pp
  by_cases h1 : a1 = "" <;> by_cases h2 : a2 = "" <;> by_cases h3 : a3 = "" <;>
    by_cases h4 : a4 = "" <;> by_cases h5 : a5 = "" <;> by_cases h6 : a6 = "" <;>
    simp_all [validateFormCompletion, validationMap]

/-- C2 (witness): instantiation at two complete records with different
non-empty contents, which the check cannot distinguish. -/
theorem claim_c2_completeness_check_witness :
    (validateFormCompletion sampleInputs).invalidFields =
      (if sampleInputs.livingArea = "" then ["livingArea"] else []) ++
      (if sampleInputs.bedroomCount = "" then ["bedroomCount"] else []) ++
      (if sampleInputs.bathroomCount = "" then ["bathroomCount"] else []) ++
      (if sampleInputs.geographicZone = "" then ["geographicZone"] else []) ++
      (if sampleInputs.constructionYear = "" then ["constructionYear"] else []) ++
      (if sampleInputs.parkingSpaces = "" then ["parkingSpaces"] else []) ∧
    ((validateFormCompletion sampleInputs).isValid = true ↔
      (sampleInputs.livingArea ≠ "" ∧ sampleInputs.bedroomCount ≠ "" ∧
       sampleInputs.bathroomCount ≠ "" ∧ sampleInputs.geographicZone ≠ "" ∧
       sampleInputs.constructionYear ≠ "" ∧ sampleInputs.parkingSpaces ≠ "")) ∧
    ((validateFormCompletion sampleInputs).isValid = true ↔
      (validateFormCompletion sampleInputs).invalidFields = []) ∧
    validateFormCompletion sampleInputs = validateFormCompletion nanSample :=
  claim_c2_completeness_check sampleInputs nanSample (by decide) (by decide)
    (by decide) (by decide) (by decide) (by decide)

lemma parking_value_ne (v : String)
    (hv : v ∈ ("" :: parkingSpaceOptions.map Prod.fst)) : v ≠ "3+" := by
  intro hEq
  subst hEq
  revert hv
  decide

/-- C10: in every reachable state the stored parkingSpaces string is one
of "", "0", "1", "2", "3" — never the displayed label "3+" — and no
snapshot handed to the valuation algorithm carries parkingSpaces "3+". -/
theorem claim_c10_parking_invariant (s : FormState) (h : Reachable s) :
    s.propertyData.parkingSpaces ∈ ("" :: parkingSpaceOptions.map Prod.fst) ∧
    s.propertyData.parkingSpaces ≠ "3+" ∧
    "3+" ∉ s.pending.map PropertyAttributes.parkingSpaces := by
  induction h with
  | init => decide
  | next s e hr hui ih =>
    obtain ⟨ihMem, ihNe, ihPend⟩ := ih
    cases e with
    | fieldChange f v =>
      cases f with
      | parkingSpaces =>
        have hv : v ∈ ("" :: parkingSpaceOptions.map Prod.fst) := by
          rcases hui with hEmpty | hOpt
          · rw [hEmpty]; exact List.mem_cons_self _ _
          · exact List.mem_cons_of_mem _ hOpt
        exact ⟨hv, parking_value_ne v hv, ihPend⟩
      | livingArea => exact ⟨ihMem, ihNe, ihPend⟩
      | bedroomCount => exact ⟨ihMem, ihNe, ihPend⟩
      | bathroomCount => exact ⟨ihMem, ihNe, ihPend⟩
      | geographicZone => exact ⟨ihMem, ihNe, ihPend⟩
      | constructionYear => exact ⟨ihMem, ihNe, ihPend⟩
    | submit =>
      by_cases hd : submitDisabled s
      · simp only [step, hd, if_pos]
        exact ⟨ihMem, ihNe, ihPend⟩
      · simp only [step, hd, if_neg, Bool.not_eq_true] at *
        rw [handleFormSubmission]
        by_cases hv : (validateFormCompletion s.propertyData).isValid
        · simp only [hv, if_pos, startValuation]
          refine ⟨ihMem, ihNe, ?_⟩
          simp only [List.map_append, List.map_cons, List.map_nil, List.mem_append,
            List.mem_singleton]
          rintro (hIn | hEq)
          · exact ihPend hIn
          · exact ihNe hEq.symm
        · simp only [hv, if_neg]
          exact ⟨ihMem, ihNe, ihPend⟩
    | fire r =>
      rcases hp : s.pending with _ | ⟨snap, rest⟩
      · simp only [step, fireTimeout, hp]
        exact ⟨ihMem, ihNe, by simp⟩
      · rw [hp] at ihPend
        simp only [List.map_cons, List.mem_cons, not_or] at ihPend
        simp only [step, fireTimeout, hp]
        exact ⟨ihMem, ihNe, ihPend.2⟩
    | reset =>
      refine ⟨?_, ?_, ihPend⟩
      · show ("" : String) ∈ _
        decide
      · show ("" : String) ≠ "3+"
        decide

/-- C10 (witness): the invariant holds at the initial state, which is
reachable. -/
theorem claim_c10_parking_invariant_witness :
    initialState.propertyData.parkingSpaces ∈ ("" :: parkingSpaceOptions.map Prod.fst) ∧
    initialState.propertyData.parkingSpaces ≠ "3+" ∧
    "3+" ∉ initialState.pending.map PropertyAttributes.parkingSpaces :=
  claim_c10_parking_invariant initialState Reachable.init
